import Mathlib

/-!
Shallow embedding of `urban-wombat/util` (util.go) in Lean 4, together with
theorems settling the specification's claims about it.

The repository ships two near-duplicate versions of `util.go`; where they
differ in behaviour (only in `CheckStringFlag`), both versions are embedded.

Modelling conventions:
* Go `string` values are Lean `String`.
* A Go `error` result is `Option String` carrying the formatted message
  (`none` = nil error).
* `strings.HasPrefix s pre` is modelled by `goHasPrefix s pre`, prefix
  testing on the underlying character lists.
-/

namespace UrbanWombatUtil

/-- Model of Go `strings.HasPrefix s pre`: does `s` start with `pre`? -/
def goHasPrefix (s pre : String) : Bool :=
  pre.toList.isPrefixOf s.toList

/-- Message built by `fmt.Errorf("missing required flag: -%s", name)`
(util.go line 172). -/
def missingRequiredFlagMsg (name : String) : String :=
  "missing required flag: -" ++ name

/-- Message built by
`fmt.Errorf("flag -%s needs a valid argument (not: %s)", name, arg)`
(util.go line 177). -/
def invalidFlagArgMsg (name arg : String) : String :=
  "flag -" ++ name ++ " needs a valid argument (not: " ++ arg ++ ")"

/-- First version of `CheckStringFlag` (util.go lines 152-182).
`existsFlag` is the local variable `exists`, set true iff `arg != ""`;
`hasValidLookingArg` is true iff the argument exists and does not begin
with `-`.  The three return points are embedded in order. -/
def checkStringFlag (name arg : String) (required : Bool) :
    Bool × Option String :=
  let existsFlag : Bool := arg != ""
  let hasValidLookingArg : Bool := existsFlag && !(goHasPrefix arg "-")
  if required && !existsFlag then
    (false, some (missingRequiredFlagMsg name))
  else if existsFlag && !hasValidLookingArg then
    (false, some (invalidFlagArgMsg name arg))
  else
    (existsFlag, none)

/-- Second version of `CheckStringFlag` (util.go lines 669-699).  Identical
to the first except on the `exists && !hasValidLookingArg` branch, where the
source calls `fmt.Errorf(...)` WITHOUT assigning the result to `err`
(line 694), so the returned error is still nil there. -/
def checkStringFlag2 (name arg : String) (required : Bool) :
    Bool × Option String :=
  let existsFlag : Bool := arg != ""
  let hasValidLookingArg : Bool := existsFlag && !(goHasPrefix arg "-")
  if required && !existsFlag then
    (false, some (missingRequiredFlagMsg name))
  else if existsFlag && !hasValidLookingArg then
    (false, none)
  else
    (existsFlag, none)

/-- An argument that begins with `-` is in particular non-empty. -/
lemma ne_empty_of_goHasPrefix_dash (s : String) (h : goHasPrefix s "-" = true) :
    s ≠ "" := by
  intro hs
  subst hs
  simp [goHasPrefix] at h

/-- Closed-form case analysis of the first `CheckStringFlag`. -/
lemma checkStringFlag_cases (name arg : String) (required : Bool) :
    checkStringFlag name arg required =
      if arg = "" then
        (if required then (false, some (missingRequiredFlagMsg name))
         else (false, none))
      else if goHasPrefix arg "-" = true then
        (false, some (invalidFlagArgMsg name arg))
      else
        (true, none) := by
  by_cases he : arg = ""
  · subst he
    cases required <;> simp [checkStringFlag]
  · have hne : (arg != "") = true := bne_iff_ne.mpr he
    by_cases hp : goHasPrefix arg "-" = true
    · simp [checkStringFlag, hne, hp, he]
    · have hp' : goHasPrefix arg "-" = false := by
        simpa using hp
      simp [checkStringFlag, hne, hp', he]

/-- Closed-form case analysis of the second `CheckStringFlag`. -/
lemma checkStringFlag2_cases (name arg : String) (required : Bool) :
    checkStringFlag2 name arg required =
      if arg = "" then
        (if required then (false, some (missingRequiredFlagMsg name))
         else (false, none))
      else if goHasPrefix arg "-" = true then
        (false, none)
      else
        (true, none) := by
  by_cases he : arg = ""
  · subst he
    cases required <;> simp [checkStringFlag2]
  · have hne : (arg != "") = true := bne_iff_ne.mpr he
    by_cases hp : goHasPrefix arg "-" = true
    · simp [checkStringFlag2, hne, hp, he]
    · have hp' : goHasPrefix arg "-" = false := by
        simpa using hp
      simp [checkStringFlag2, hne, hp', he]

/-- One call to `reader.ReadRune()` on standard input yields either a
decoded character, the end-of-stream signal `io.EOF`, or some other decode
error (carried as its message). -/
inductive ReadEvent where
  | rune (c : Char)
  | eof
  | fail (msg : String)
deriving DecidableEq

/-- The `for` loop of `GulpFromPipe` (util.go lines 483-493), reading one
event at a time: on `io.EOF` it breaks and the function returns
`(string(output), nil)`; on any other error it returns `("", err)`;
otherwise it appends the rune to `output` and continues.  An exhausted
event list models a read that blocks forever, hence the `Option` result:
`none` means the loop never terminates. -/
def gulpFromPipeLoop : List ReadEvent → List Char → Option (String × Option String)
  | [], _ => none
  | ReadEvent.eof :: _, output => some (String.mk output, none)
  | ReadEvent.fail msg :: _, _ => some ("", some msg)
  | ReadEvent.rune c :: rest, output => gulpFromPipeLoop rest (output ++ [c])

/-- `GulpFromPipe` (util.go lines 479-496): run the decode loop on the
stream of read events with an initially empty `output`. -/
def gulpFromPipe (events : List ReadEvent) : Option (String × Option String) :=
  gulpFromPipeLoop events []

/-- Message built by
`fmt.Errorf("did not read any piped input from stdin after waiting %v", timeout)`
(util.go line 518).  The duration is modelled as a `Nat` and its `%v`
rendering by `toString`. -/
def timeoutMsg (timeout : Nat) : String :=
  "did not read any piped input from stdin after waiting " ++ toString timeout

/-- `GulpFromPipeWithTimeout` (util.go lines 505-522).  A goroutine runs
`GulpFromPipe` and sends only the string `input` on the one-slot channel
`c1`; the `select` races that delivery against `time.After(timeout)`.
`readWinsRace` is the schedule: `true` means the read's delivery is
selected first.  When the delivery is selected the source executes
`return result, nil`, discarding the read's error; when the read never
terminates (`gulpFromPipe events = none`) nothing is ever sent on `c1`,
so the timeout branch fires whatever the schedule. -/
def gulpFromPipeWithTimeout (timeout : Nat) (events : List ReadEvent)
    (readWinsRace : Bool) : String × Option String :=
  match gulpFromPipe events, readWinsRace with
  | some (input, _err), true => (input, none)
  | _, _ => ("", some (timeoutMsg timeout))

/-- Result of `os.Stdin.Stat()` when it succeeds: whether the mode has the
character-device bit set, and the reported size. -/
structure StatInfo where
  isCharDevice : Bool
  size : Int
deriving DecidableEq

/-- `CanReadFromPipe` (util.go lines 459-470): on a stat error return
`(false, err)`; otherwise return `(true, nil)` when stdin is a character
device or its size is `<= 0`, else `(false, nil)`. -/
def canReadFromPipe : Except String StatInfo → Bool × Option String
  | Except.error err => (false, some err)
  | Except.ok info =>
    if info.isCharDevice || decide (info.size ≤ 0) then (true, none)
    else (false, none)

/-- Running the decode loop over a run of successfully decoded characters
appends them, in order, to the accumulator. -/
lemma gulpFromPipeLoop_runes (cs : List Char) (rest : List ReadEvent) :
    ∀ output : List Char,
      gulpFromPipeLoop (cs.map ReadEvent.rune ++ rest) output =
        gulpFromPipeLoop rest (output ++ cs) := by
  induction cs with
  | nil => intro output; simp
  | cons c cs ih =>
      intro output
      simp only [List.map_cons, List.cons_append, gulpFromPipeLoop]
      rw [show (List.map ReadEvent.rune cs).append rest =
            List.map ReadEvent.rune cs ++ rest from rfl, ih]
      simp [List.append_assoc]

end UrbanWombatUtil

namespace UrbanWombatUtilClaims
open UrbanWombatUtil

/-- C1: First version of `CheckStringFlag`: on empty `arg` with
`required = true` it returns `(false, MissingRequiredFlag name)`; on empty
`arg` with `required = false` it returns `(false, nil)`; on non-empty `arg`
not beginning with `-` it returns `(true, nil)` for either `required`. -/
theorem checkStringFlag_v1_basic (name arg : String) (required : Bool)
    (hne : arg ≠ "") (hnp : goHasPrefix arg "-" = false) :
    checkStringFlag name "" true = (false, some (missingRequiredFlagMsg name)) ∧
    checkStringFlag name "" false = (false, none) ∧
    checkStringFlag name arg required = (true, none) := by
  refine ⟨?_, ?_, ?_⟩
  · rw [checkStringFlag_cases]
    simp
  · rw [checkStringFlag_cases]
    simp
  · rw [checkStringFlag_cases]
    simp [hne, hnp]

/-- Witness for C1 at `name = "r"`, `arg = "v"`, `required = true`. -/
theorem checkStringFlag_v1_basic_witness :
    ("v" : String) ≠ "" ∧ goHasPrefix "v" "-" = false ∧
    (checkStringFlag "r" "" true = (false, some (missingRequiredFlagMsg "r")) ∧
     checkStringFlag "r" "" false = (false, none) ∧
     checkStringFlag "r" "v" true = (true, none)) :=
  ⟨by decide, by decide, checkStringFlag_v1_basic "r" "v" true (by decide) (by decide)⟩

/-- C2: First version of `CheckStringFlag`: whenever `arg` begins with `-`,
for either `required`, the result is `(false, InvalidFlagArgument name arg)`,
a non-nil error whose message contains both the flag name and the argument. -/
theorem checkStringFlag_v1_flagShapedArg (name arg : String) (required : Bool)
    (hp : goHasPrefix arg "-" = true) :
    checkStringFlag name arg required = (false, some (invalidFlagArgMsg name arg)) ∧
    name.toList <:+: (invalidFlagArgMsg name arg).toList ∧
    arg.toList <:+: (invalidFlagArgMsg name arg).toList := by
  have hne : arg ≠ "" := ne_empty_of_goHasPrefix_dash arg hp
  have hmsg : (invalidFlagArgMsg name arg).toList =
      "flag -".toList ++ (name.toList ++
        ((" needs a valid argument (not: ").toList ++ (arg.toList ++ ")".toList))) := by
    simp [invalidFlagArgMsg, String.data_append]
  refine ⟨?_, ?_, ?_⟩
  · rw [checkStringFlag_cases]
    simp [hne, hp]
  · exact ⟨"flag -".toList,
      (" needs a valid argument (not: ").toList ++ (arg.toList ++ ")".toList),
      by rw [hmsg]; simp⟩
  · exact ⟨"flag -".toList ++ (name.toList ++ (" needs a valid argument (not: ").toList),
      ")".toList, by rw [hmsg]; simp⟩

/-- Witness for C2 at `name = "o"`, `arg = "-x"`, `required = false`. -/
theorem checkStringFlag_v1_flagShapedArg_witness :
    goHasPrefix "-x" "-" = true ∧
    (checkStringFlag "o" "-x" false = (false, some (invalidFlagArgMsg "o" "-x")) ∧
     ("o" : String).toList <:+: (invalidFlagArgMsg "o" "-x").toList ∧
     ("-x" : String).toList <:+: (invalidFlagArgMsg "o" "-x").toList) :=
  ⟨by decide, checkStringFlag_v1_flagShapedArg "o" "-x" false (by decide)⟩

/-- C3 counterexample: at `name = "o"`, `arg = "-x"`, `required = false`, the
argument is non-empty yet the returned `exists` is `false` — refuting
"`exists` returned is true iff `arg` is non-empty". -/
theorem checkStringFlag_v1_exists_claim_false :
    ¬ (((checkStringFlag "o" "-x" false).1 = true) ↔ ("-x" : String) ≠ "") := by
  decide

/-- C3 amended: the `exists` value returned by the first version of
`CheckStringFlag` is true iff `arg` is non-empty AND does not begin with
`-` (on the flag-shaped branch the code executes `return false, err`). -/
theorem checkStringFlag_v1_exists_iff (name arg : String) (required : Bool) :
    (checkStringFlag name arg required).1 = true ↔
      (arg ≠ "" ∧ goHasPrefix arg "-" = false) := by
  rw [checkStringFlag_cases]
  by_cases he : arg = ""
  · subst he
    cases required <;> simp
  · by_cases hp : goHasPrefix arg "-" = true
    · simp [he, hp]
    · have hp' : goHasPrefix arg "-" = false := by
        simpa using hp
      simp [he, hp']

/-- C4: the two versions of `CheckStringFlag` differ exactly on the branch
where `arg` begins with `-`: there the first returns a non-nil
`InvalidFlagArgument` error while the second (which drops the `err =`
assignment) returns a nil error; on every other input they agree. -/
theorem checkStringFlag_v1_v2_comparison :
    (∃ name arg required,
        checkStringFlag name arg required ≠ checkStringFlag2 name arg required) ∧
    (∀ name arg : String, ∀ required : Bool, goHasPrefix arg "-" = true →
        checkStringFlag name arg required = (false, some (invalidFlagArgMsg name arg)) ∧
        checkStringFlag2 name arg required = (false, none)) ∧
    (∀ name arg : String, ∀ required : Bool, goHasPrefix arg "-" = false →
        checkStringFlag name arg required = checkStringFlag2 name arg required) := by
  refine ⟨⟨"o", "-x", false, by decide⟩, ?_, ?_⟩
  · intro name arg required hp
    have hne : arg ≠ "" := ne_empty_of_goHasPrefix_dash arg hp
    rw [checkStringFlag_cases, checkStringFlag2_cases]
    simp [hne, hp]
  · intro name arg required hp
    rw [checkStringFlag_cases, checkStringFlag2_cases]
    by_cases he : arg = ""
    · simp [he]
    · simp [he, hp]

/-- Witness for C4: the divergence at `("o", "-x", false)` and the agreement
at `("o", "v", true)`, obtained from the theorem itself. -/
theorem checkStringFlag_v1_v2_comparison_witness :
    goHasPrefix "-x" "-" = true ∧
    (checkStringFlag "o" "-x" false = (false, some (invalidFlagArgMsg "o" "-x")) ∧
     checkStringFlag2 "o" "-x" false = (false, none)) ∧
    goHasPrefix "v" "-" = false ∧
    checkStringFlag "o" "v" true = checkStringFlag2 "o" "v" true :=
  ⟨by decide, checkStringFlag_v1_v2_comparison.2.1 "o" "-x" false (by decide),
   by decide, checkStringFlag_v1_v2_comparison.2.2 "o" "v" true (by decide)⟩

/-- C5 (failing input): a stream whose first read fails with a non-EOF
decode error.  `GulpFromPipe` finishes with that error, and the read wins
the race, yet `GulpFromPipeWithTimeout` executes `return result, nil` and
reports a nil error — the decode error is swallowed, not propagated
verbatim as the specification requires. -/
theorem gulpFromPipeWithTimeout_swallows_read_error :
    gulpFromPipe [ReadEvent.fail "invalid byte"] = some ("", some "invalid byte") ∧
    gulpFromPipeWithTimeout 1000 [ReadEvent.fail "invalid byte"] true = ("", none) := by
  decide

/-- C6: whenever the timeout fires before the read's delivery is selected
(`readWinsRace = false`), `GulpFromPipeWithTimeout` returns the empty
string together with the non-nil timeout error carrying the given
duration.  The statement quantifies over every event stream — including
those on which the background read never terminates — so the caller gets
this result without blocking on the read. -/
theorem gulpFromPipeWithTimeout_timeout (timeout : Nat) (events : List ReadEvent) :
    gulpFromPipeWithTimeout timeout events false = ("", some (timeoutMsg timeout)) ∧
    timeoutMsg timeout =
      "did not read any piped input from stdin after waiting " ++ toString timeout := by
  constructor
  · unfold gulpFromPipeWithTimeout
    cases gulpFromPipe events with
    | none => rfl
    | some r => cases r; rfl
  · rfl

/-- C7: on a finite stream of successfully decoded characters followed by
end-of-stream, `GulpFromPipe` returns exactly those characters concatenated
in arrival order, with a nil error (events after the EOF are never read). -/
theorem gulpFromPipe_roundTrip (cs : List Char) (rest : List ReadEvent) :
    gulpFromPipe (cs.map ReadEvent.rune ++ ReadEvent.eof :: rest) =
      some (String.mk cs, none) := by
  unfold gulpFromPipe
  rw [gulpFromPipeLoop_runes]
  simp [gulpFromPipeLoop]

/-- C8: `CanReadFromPipe` returns `(false, err)` when the stat of stdin
fails; on success it returns `(true, nil)` iff stdin is a character device
or its reported size is at most zero, and `(false, nil)` otherwise. -/
theorem canReadFromPipe_spec :
    (∀ e : String, canReadFromPipe (Except.error e) = (false, some e)) ∧
    (∀ info : StatInfo,
        canReadFromPipe (Except.ok info) = (true, none) ↔
          (info.isCharDevice = true ∨ info.size ≤ 0)) ∧
    (∀ info : StatInfo, ¬ (info.isCharDevice = true ∨ info.size ≤ 0) →
        canReadFromPipe (Except.ok info) = (false, none)) := by
  refine ⟨fun e => rfl, fun info => ?_, fun info h => ?_⟩
  · unfold canReadFromPipe
    by_cases hc : info.isCharDevice = true
    · simp [hc]
    · by_cases hs : info.size ≤ 0
      · simp [hs]
      · simp [hc, hs]
  · unfold canReadFromPipe
    push_neg at h
    simp [h.1, h.2, not_le.mpr h.2]

/-- Witness for C8 at a regular non-empty file on stdin:
`isCharDevice = false`, `size = 5`. -/
theorem canReadFromPipe_spec_witness :
    ¬ ((false : Bool) = true ∨ (5 : Int) ≤ 0) ∧
    canReadFromPipe (Except.ok ⟨false, 5⟩) = (false, none) :=
  ⟨by decide, canReadFromPipe_spec.2.2 ⟨false, 5⟩ (by decide)⟩

/-- C10: on any stream where a decode error other than end-of-stream
occurs, `GulpFromPipe` returns the empty string along with that error —
every character decoded before the failure is discarded. -/
theorem gulpFromPipe_error_discards_accumulated (cs : List Char) (msg : String)
    (rest : List ReadEvent) :
    gulpFromPipe (cs.map ReadEvent.rune ++ ReadEvent.fail msg :: rest) =
      some ("", some msg) := by
  unfold gulpFromPipe
  rw [gulpFromPipeLoop_runes]
  simp [gulpFromPipeLoop]

end UrbanWombatUtilClaims
